import Mathlib

/-!
Verification of the options-merging / manifest-generation layer and the
Pub/Sub event-adaptation layer of `firebase-functions-python`
(files `options.py`, `pubsub.py`, `private/util.py`).

The embedding is shallow: Python dataclasses become Lean structures, the
dynamically-typed values flowing through `dataclasses.asdict` dictionaries
become the universal value type `PyVal`, Python dictionaries become
association lists (`List (String × PyVal)`) in insertion order, and fallible
Python code (KeyError / TypeError / ValueError / assert) returns
`Except String _`.
-/

set_option autoImplicit false

namespace Firebase

/-- A timezone-aware timestamp as produced by Python
`datetime.strptime(value, "%Y-%m-%dT%H:%M:%S.%f%z")`:
calendar fields, microseconds, and a UTC offset in minutes. -/
structure Timestamp where
  year : Nat
  month : Nat
  day : Nat
  hour : Nat
  minute : Nat
  second : Nat
  microsecond : Nat
  tzOffsetMinutes : Int
  deriving DecidableEq, Repr

/-- Universal dynamic value: everything a Python variable can hold in the
translated code.  `PyVal.none` is Python `None` (an absent option field),
`PyVal.sentinel` is the `USE_DEFAULT` instance of `_util.Sentinel`,
`PyVal.secretParam n` is a `params.SecretParam` carrying its `name`,
`PyVal.datetime` is a parsed `datetime.datetime`. -/
inductive PyVal where
  | none
  | sentinel
  | bool (b : Bool)
  | int (n : Int)
  | str (s : String)
  | list (xs : List PyVal)
  | dict (xs : List (String × PyVal))
  | secretParam (nm : String)
  | datetime (t : Timestamp)

mutual

/-- Python `==` on `PyVal` (dict comparison is modelled pairwise in insertion
order; the translated code only ever compares a string against list elements,
where this coincides with Python). -/
def PyVal.pyEq : PyVal → PyVal → Bool
  | .none, .none => true
  | .sentinel, .sentinel => true
  | .bool a, .bool b => a == b
  | .int a, .int b => a == b
  | .str a, .str b => a == b
  | .list a, .list b => pyEqList a b
  | .dict a, .dict b => pyEqDict a b
  | .secretParam a, .secretParam b => a == b
  | .datetime a, .datetime b => a == b
  | _, _ => false

/-- Elementwise `PyVal.pyEq` on lists. -/
def pyEqList : List PyVal → List PyVal → Bool
  | [], [] => true
  | x :: xs, y :: ys => PyVal.pyEq x y && pyEqList xs ys
  | _, _ => false

/-- Pairwise `PyVal.pyEq` on dict entries. -/
def pyEqDict : List (String × PyVal) → List (String × PyVal) → Bool
  | [], [] => true
  | kv :: xs, kw :: ys => kv.1 == kw.1 && PyVal.pyEq kv.2 kw.2 && pyEqDict xs ys
  | _, _ => false

end

/-- Python `x is None`. -/
def PyVal.isNone : PyVal → Bool
  | .none => true
  | _ => false

/-- Python `x is USE_DEFAULT`: identity with the reset-to-default
sentinel instance. -/
def PyVal.isSentinel : PyVal → Bool
  | .sentinel => true
  | _ => false

/-- Python `{**a, **b}` on string-keyed dicts: the keys of `a` in insertion
order (values overridden by `b` where both have the key), followed by the
keys of `b` that are not in `a`, in `b`'s insertion order. -/
def pyDictMerge (a b : List (String × PyVal)) : List (String × PyVal) :=
  (a.map fun kv => (kv.1, match b.lookup kv.1 with
    | some w => w
    | Option.none => kv.2))
  ++ b.filter fun kv => (a.lookup kv.1).isNone

/-- Python `d[k] = v` for a key `k` already present in dict `d`
(every use below updates an existing key). -/
def dictSet (d : List (String × PyVal)) (k : String) (v : PyVal) :
    List (String × PyVal) :=
  d.map fun kv => if kv.1 == k then (kv.1, v) else kv

/-- Python `d.pop(k, None)` restricted to its effect on the dict. -/
def dictPop (d : List (String × PyVal)) (k : String) : List (String × PyVal) :=
  d.filter fun kv => kv.1 != k

/-- Python `d[k] = v` where `k` may be new: update in place if present,
else append (new keys go to the end in insertion order). -/
def dictSetOrAdd (d : List (String × PyVal)) (k : String) (v : PyVal) :
    List (String × PyVal) :=
  if (d.lookup k).isSome then dictSet d k v else d ++ [(k, v)]

/-!
## Python string primitives

Implemented over `List Char` so that every definition evaluates by kernel
reduction.  `lower` is ASCII (sufficient for the header and content-type
strings compared here; Python's is full Unicode).
-/

/-- Python `s.lower()` (ASCII). -/
def pyToLower (s : String) : String :=
  String.mk (s.toList.map Char.toLower)

/-- Python `s.strip()`: remove leading and trailing whitespace. -/
def pyTrim (s : String) : String :=
  String.mk (((s.toList.dropWhile Char.isWhitespace).reverse.dropWhile
    Char.isWhitespace).reverse)

/-- Python `s.startswith(prefix)`. -/
def pyStartsWith (s pre : String) : Bool :=
  pre.toList.isPrefixOf s.toList

/-- Scan of `pyReplace`: replace every non-overlapping occurrence of `pat`
(nonempty) left to right; the fuel is the input length, consuming at least
one character per step. -/
def replaceAllAux (pat rep : List Char) : Nat → List Char → List Char
  | _, [] => []
  | 0, l => l
  | Nat.succ fuel, c :: rest =>
    if pat.isPrefixOf (c :: rest) then
      rep ++ replaceAllAux pat rep fuel (rest.drop (pat.length - 1))
    else c :: replaceAllAux pat rep fuel rest

/-- Python `s.replace(pat, rep)`: every occurrence is replaced (the
empty-pattern case, unused here, leaves the string unchanged). -/
def pyReplace (s pat rep : String) : String :=
  match pat.toList with
  | [] => s
  | ps => String.mk (replaceAllAux ps rep.toList s.toList.length s.toList)

/-- Substring containment on character lists (Python `needle in s`; the
empty needle is contained in everything). -/
def listContainsSub : List Char → List Char → Bool
  | needle, [] => needle.isEmpty
  | needle, c :: rest =>
    needle.isPrefixOf (c :: rest) || listContainsSub needle rest

/-!
## Options layer (`options.py`)
-/

/-- The base option record (`options.RuntimeOptions`): 13 keyword-only fields,
each `None` (absent) by default.  Field values are dynamic (`PyVal`); the
reset-to-default sentinel `USE_DEFAULT` is `PyVal.sentinel`.  Fields are in
dataclass declaration order, which fixes the `dataclasses.asdict` key order. -/
structure RuntimeOptions where
  region : PyVal
  memory : PyVal
  timeout_sec : PyVal
  min_instances : PyVal
  max_instances : PyVal
  concurrency : PyVal
  cpu : PyVal
  vpc_connector : PyVal
  vpc_connector_egress_settings : PyVal
  service_account : PyVal
  ingress : PyVal
  labels : PyVal
  secrets : PyVal

/-- `RuntimeOptions()`: every field left at its declared default `None`.
This is also the module-load value of the process-wide `_GLOBAL_OPTIONS`. -/
def RuntimeOptions.empty : RuntimeOptions :=
  ⟨.none, .none, .none, .none, .none, .none, .none, .none, .none, .none,
   .none, .none, .none⟩

/-- `dataclasses.asdict(self)` for a `RuntimeOptions`: the field dict in
declaration order. -/
def RuntimeOptions.asdict (o : RuntimeOptions) : List (String × PyVal) :=
  [("region", o.region), ("memory", o.memory), ("timeout_sec", o.timeout_sec),
   ("min_instances", o.min_instances), ("max_instances", o.max_instances),
   ("concurrency", o.concurrency), ("cpu", o.cpu),
   ("vpc_connector", o.vpc_connector),
   ("vpc_connector_egress_settings", o.vpc_connector_egress_settings),
   ("service_account", o.service_account), ("ingress", o.ingress),
   ("labels", o.labels), ("secrets", o.secrets)]

/-- One iteration of the merge loop of
`RuntimeOptions._asdict_with_global_options`:
`if provider_options[key] is None and key in global_options:
merged[key] = global_options[key]`. -/
def mergeStep (global_options : List (String × PyVal))
    (merged : List (String × PyVal)) (kv : String × PyVal) :
    List (String × PyVal) :=
  if kv.2.isNone && (global_options.lookup kv.1).isSome then
    dictSet merged kv.1 ((global_options.lookup kv.1).getD PyVal.none)
  else merged

/-- `RuntimeOptions._asdict_with_global_options`, generic in the two dicts:
the initial `merged = {**global_options, **provider_options}` followed by the
loop over the provider keys (`mergeStep`). -/
def asdict_with_global_options (provider_options global_options :
    List (String × PyVal)) : List (String × PyVal) :=
  provider_options.foldl (mergeStep global_options)
    (pyDictMerge global_options provider_options)

/-- `self.__class__(**options_dict)` projected back onto the base fields: the
reconstructed record reads each base field from the merged dict (each key is
always present; the `getD` default is never exercised). -/
def RuntimeOptions.fromdict (d : List (String × PyVal)) : RuntimeOptions :=
  ⟨(d.lookup "region").getD .none, (d.lookup "memory").getD .none,
   (d.lookup "timeout_sec").getD .none, (d.lookup "min_instances").getD .none,
   (d.lookup "max_instances").getD .none, (d.lookup "concurrency").getD .none,
   (d.lookup "cpu").getD .none, (d.lookup "vpc_connector").getD .none,
   (d.lookup "vpc_connector_egress_settings").getD .none,
   (d.lookup "service_account").getD .none, (d.lookup "ingress").getD .none,
   (d.lookup "labels").getD .none, (d.lookup "secrets").getD .none⟩

/-- `set_global_options(...)`: builds the replacement `_GLOBAL_OPTIONS` record
from exactly the supplied keyword arguments.  The 13 parameters are in the
declared keyword order of the source function. -/
def set_global_options (region memory timeout_sec min_instances max_instances
    concurrency cpu vpc_connector vpc_connector_egress_settings
    service_account ingress labels secrets : PyVal) : RuntimeOptions :=
  ⟨region, memory, timeout_sec, min_instances, max_instances, concurrency,
   cpu, vpc_connector, vpc_connector_egress_settings, service_account,
   ingress, labels, secrets⟩

/-- `set_global_options()` called with no keyword arguments: each parameter
takes its declared default, which is `None` for every field except `cpu`,
whose declared default is the string `"gcf_gen1"`. -/
def set_global_options_no_args : RuntimeOptions :=
  set_global_options .none .none .none .none .none .none (.str "gcf_gen1")
    .none .none .none .none .none .none

/-- The mutation step performed by `set_global_options` on the process-wide
`_GLOBAL_OPTIONS`: the previous record is rebound, never read. -/
def set_global_options_step (_PREV : RuntimeOptions) (region memory timeout_sec
    min_instances max_instances concurrency cpu vpc_connector
    vpc_connector_egress_settings service_account ingress labels secrets :
    PyVal) : RuntimeOptions :=
  set_global_options region memory timeout_sec min_instances max_instances
    concurrency cpu vpc_connector vpc_connector_egress_settings
    service_account ingress labels secrets

/-!
## Manifest structures

`private/manifest.py` is not part of this excerpt; `EventTrigger` and
`ManifestEndpoint` are modelled from the spec (section 3, "Manifest entry";
section 4.2) and from their constructor uses in `options.py`: an endpoint
holds the entry point, the listed runtime settings, and an optional embedded
event-trigger block, absent (`Option.none`) unless a subclass supplies one.
-/

/-- Modelled from the spec: the embedded event-trigger block of a manifest
entry — event type string, retry flag, exact-match filters, and path-pattern
filters (constructor use: `options.py`, `DatabaseOptions._endpoint`). -/
structure EventTrigger where
  eventType : String
  retry : Bool
  eventFilters : List (String × String)
  eventFilterPathPatterns : List (String × String)
  deriving DecidableEq, Repr

/-- Modelled from the spec: the manifest entry record, with the fields passed
by `RuntimeOptions._endpoint` in its keyword order, plus the `eventTrigger`
field that only event-trigger subclasses fill in (its default is absent). -/
structure ManifestEndpoint where
  entryPoint : String
  region : PyVal
  availableMemoryMb : PyVal
  labels : PyVal
  maxInstances : PyVal
  minInstances : PyVal
  concurrency : PyVal
  serviceAccountEmail : PyVal
  timeoutSeconds : PyVal
  cpu : PyVal
  ingressSettings : PyVal
  secretEnvironmentVariables : PyVal
  vpc : PyVal
  eventTrigger : Option EventTrigger

/-- `convert_secret` from `RuntimeOptions._endpoint`: a `SecretParam` maps to
its `name`, anything else maps to itself, wrapped as a one-entry dict. -/
def convert_secret : PyVal → PyVal
  | .secretParam nm => .dict [("key", .str nm)]
  | v => .dict [("key", v)]

/-- Python `options.secrets is _util.Sentinel`: an identity comparison against
the `Sentinel` *class* object.  Every value a `secrets` field can hold is an
instance (`USE_DEFAULT` is modelled as `PyVal.sentinel`), never the class
itself, so by Python identity semantics this test is false for every field
value. -/
def secrets_is_sentinel_class (_v : PyVal) : Bool := false

/-- The `secret_envs` computation of `RuntimeOptions._endpoint`: starts as
`[]`; a list of secrets is mapped through `convert_secret`; the
`elif options.secrets is _util.Sentinel` branch would pass the value through
(see `secrets_is_sentinel_class`); everything else leaves the empty list. -/
def secret_envs_of (secrets : PyVal) : PyVal :=
  if secrets.isNone then .list []
  else
    match secrets with
    | .list xs => .list (xs.map convert_secret)
    | v => if secrets_is_sentinel_class v then v else .list []

/-- The `region` computation of `RuntimeOptions._endpoint`: a list passes
through, `None` stays `None`, any other value is wrapped in a one-element
list. -/
def region_of : PyVal → PyVal
  | .list xs => .list xs
  | .none => .none
  | v => .list [v]

/-- The `vpc` computation of `RuntimeOptions._endpoint`: built only when a
connector is set; the egress setting is included only when itself set. -/
def vpc_of (vpc_connector vpc_connector_egress_settings : PyVal) : PyVal :=
  match vpc_connector with
  | .none => .none
  | conn =>
    match vpc_connector_egress_settings with
    | .none => .dict [("connector", conn)]
    | eg => .dict [("connector", conn), ("egressSettings", eg)]

/-- The `ManifestEndpoint(...)` construction of `RuntimeOptions._endpoint`,
applied to the already-merged options record: keyword arguments in source
order; `eventTrigger` is not passed, so it takes its absent default. -/
def endpoint_of_merged (options : RuntimeOptions) (fn : String) :
    ManifestEndpoint :=
  ⟨fn, region_of options.region, options.memory, options.labels,
   options.max_instances, options.min_instances, options.concurrency,
   options.service_account, options.timeout_sec, options.cpu,
   options.ingress, secret_envs_of options.secrets,
   vpc_of options.vpc_connector options.vpc_connector_egress_settings,
   Option.none⟩

/-- `RuntimeOptions._endpoint(**kwargs)`: asserts `func_name` is supplied,
merges the record with the process-wide globals, reconstructs a record from
the merged dict, and builds the manifest entry. -/
def RuntimeOptions._endpoint (self GLOBAL_OPTIONS : RuntimeOptions)
    (func_name : Option String) : Except String ManifestEndpoint :=
  match func_name with
  | Option.none => .error "AssertionError: func_name is None"
  | some fn =>
    .ok (endpoint_of_merged
      (RuntimeOptions.fromdict
        (asdict_with_global_options self.asdict GLOBAL_OPTIONS.asdict)) fn)

/-- `options.PubSubOptions`: the base record plus the trigger-specific
`retry` and `topic` fields (dataclass order puts them after the base
fields). -/
structure PubSubOptions where
  base : RuntimeOptions
  retry : PyVal
  topic : PyVal

/-- `dataclasses.asdict` for `PubSubOptions`: base fields first, then the
subclass fields, in declaration order. -/
def PubSubOptions.asdict (o : PubSubOptions) : List (String × PyVal) :=
  o.base.asdict ++ [("retry", o.retry), ("topic", o.topic)]

/-- `PubSubOptions` does not override `_endpoint`; a call dispatches to the
inherited `RuntimeOptions._endpoint`.  The merged dict is computed from the
`PubSubOptions` field dict (which carries the extra `retry`/`topic` keys);
`self.__class__(**options_dict)` keeps those keys on the reconstructed
record, but the inherited endpoint construction reads only base fields. -/
def PubSubOptions._endpoint (self : PubSubOptions)
    (GLOBAL_OPTIONS : RuntimeOptions) (func_name : Option String) :
    Except String ManifestEndpoint :=
  match func_name with
  | Option.none => .error "AssertionError: func_name is None"
  | some fn =>
    .ok (endpoint_of_merged
      (RuntimeOptions.fromdict
        (asdict_with_global_options self.asdict GLOBAL_OPTIONS.asdict)) fn)

/-- `on_message_published`'s endpoint registration (`pubsub.py`): the
decorator builds a `PubSubOptions` from its kwargs and attaches
`options._endpoint(func_name=func.__name__)` to the wrapped handler. -/
def on_message_published_endpoint (options : PubSubOptions)
    (GLOBAL_OPTIONS : RuntimeOptions) (func_name : String) :
    Except String ManifestEndpoint :=
  PubSubOptions._endpoint options GLOBAL_OPTIONS (some func_name)

/-- Python `"*" in s` for the single-character needle `"*"`: substring
containment, which for one character is character containment. -/
def containsStar (s : String) : Bool :=
  s.toList.contains '*'

/-- Python `s.strip("/")`: remove leading and trailing `'/'` characters. -/
def stripSlashes (s : String) : String :=
  String.mk (((s.toList.dropWhile (· = '/')).reverse.dropWhile
    (· = '/')).reverse)

/-- `options.DatabaseOptions`: the base record plus the required `reference`
and the optional `instance` (field named `db_instance` here because
`instance` is a Lean keyword).  Their declared Python types are `str` and
`Optional[str]`. -/
structure DatabaseOptions where
  base : RuntimeOptions
  reference : String
  db_instance : Option String

/-- `dataclasses.asdict` for `DatabaseOptions`. -/
def DatabaseOptions.asdict (o : DatabaseOptions) : List (String × PyVal) :=
  o.base.asdict ++
    [("reference", .str o.reference),
     ("instance", match o.db_instance with
       | some s => .str s
       | Option.none => .none)]

/-- The event-trigger block built by `DatabaseOptions._endpoint`: the
`instance` value (defaulted to `"*"` when unset) goes to the path-pattern
filters when it contains `'*'`, else to the exact filters; `ref` is the
reference with leading/trailing `'/'` stripped and always a path pattern. -/
def db_event_trigger (reference : String) (db_instance : Option String)
    (event_type : String) : EventTrigger :=
  let event_filter_instance := db_instance.getD "*"
  let event_filters : List (String × String) :=
    if containsStar event_filter_instance then []
    else [("instance", event_filter_instance)]
  let event_filters_path_patterns : List (String × String) :=
    ("ref", stripSlashes reference) ::
      (if containsStar event_filter_instance then
        [("instance", event_filter_instance)]
      else [])
  ⟨event_type, false, event_filters, event_filters_path_patterns⟩

/-- `DatabaseOptions._endpoint(**kwargs)`: asserts `event_type` is supplied,
builds the event-trigger block, then extends the inherited base entry
(`super()._endpoint(**kwargs)`, which asserts `func_name`) with it. -/
def DatabaseOptions._endpoint (self : DatabaseOptions)
    (GLOBAL_OPTIONS : RuntimeOptions) (func_name event_type : Option String) :
    Except String ManifestEndpoint :=
  match event_type with
  | Option.none => .error "AssertionError: event_type is None"
  | some et =>
    let event_trigger := db_event_trigger self.reference self.db_instance et
    match func_name with
    | Option.none => .error "AssertionError: func_name is None"
    | some fn =>
      let base_endpoint := endpoint_of_merged
        (RuntimeOptions.fromdict
          (asdict_with_global_options self.asdict GLOBAL_OPTIONS.asdict)) fn
      .ok { base_endpoint with eventTrigger := some event_trigger }

/-!
## External primitives used by the event adaptor

Python's `datetime.strptime`, `base64.b64decode`, `bytes.decode("utf-8")` and
`json.loads` are external primitives (spec section 1).  They are modelled
here executable and faithful on the inputs the adaptor feeds them; modelling
restrictions are noted on each definition.
-/

/-- Consume exactly `n` decimal digits, returning their value. -/
def parseDigitsExact : Nat → Nat → List Char → Option (Nat × List Char)
  | 0, acc, cs => some (acc, cs)
  | Nat.succ m, acc, c :: rest =>
    if c.isDigit then parseDigitsExact m (acc * 10 + (c.toNat - 48)) rest
    else Option.none
  | Nat.succ _, _, [] => Option.none

/-- Consume between one and `n` decimal digits, returning them. -/
def parseDigitsUpTo : Nat → List Char → List Char × List Char
  | 0, cs => ([], cs)
  | Nat.succ m, c :: rest =>
    if c.isDigit then
      let p := parseDigitsUpTo m rest
      (c :: p.1, p.2)
    else ([], c :: rest)
  | Nat.succ _, [] => ([], [])

/-- Consume one expected character. -/
def expectChar (c : Char) : List Char → Option (List Char)
  | d :: rest => if d = c then some rest else Option.none
  | [] => Option.none

/-- The trailing `%z` directive: a sign followed by a two-digit hour, an
optional colon, and a two-digit minute, or the literal `Z` (UTC).  (Python
additionally accepts an optional seconds part, which never occurs on the
wire here.)  Returns the UTC offset in minutes. -/
def parseTzOffset : List Char → Option (Int × List Char)
  | 'Z' :: rest => some (0, rest)
  | c :: rest =>
    if c = '+' ∨ c = '-' then
      match parseDigitsExact 2 0 rest with
      | some (hh, rest1) =>
        let rest2 := match rest1 with
          | ':' :: r => r
          | r => r
        match parseDigitsExact 2 0 rest2 with
        | some (mm, rest3) =>
          let mins : Int := (hh * 60 + mm : Nat)
          some (if c = '-' then -mins else mins, rest3)
        | Option.none => Option.none
      | Option.none => Option.none
    else Option.none
  | [] => Option.none

/-- Modelled from the spec: Python
`datetime.strptime(s, "%Y-%m-%dT%H:%M:%S.%f%z")` — the fixed timestamp
format of the adaptor (spec section 4.4).  Restricted to zero-padded
two-digit month/day/hour/minute/second fields as produced on the wire
(Python's matcher also accepts some unpadded forms); `%f` is 1–6 digits
scaled to microseconds; the whole string must be consumed.  Failure models
the `ValueError` strptime raises on a non-matching string. -/
def strptime_fixed (s : String) : Except String Timestamp :=
  let r : Option Timestamp := do
    let (year, cs) ← parseDigitsExact 4 0 s.toList
    let cs ← expectChar '-' cs
    let (month, cs) ← parseDigitsExact 2 0 cs
    let cs ← expectChar '-' cs
    let (day, cs) ← parseDigitsExact 2 0 cs
    let cs ← expectChar 'T' cs
    let (hour, cs) ← parseDigitsExact 2 0 cs
    let cs ← expectChar ':' cs
    let (minute, cs) ← parseDigitsExact 2 0 cs
    let cs ← expectChar ':' cs
    let (second, cs) ← parseDigitsExact 2 0 cs
    let cs ← expectChar '.' cs
    let p := parseDigitsUpTo 6 cs
    let frac := p.1
    let cs := p.2
    if frac.length = 0 then Option.none
    else
      let fracVal := frac.foldl (fun a c => a * 10 + (c.toNat - 48)) 0
      let microsecond := fracVal * 10 ^ (6 - frac.length)
      let (tz, cs) ← parseTzOffset cs
      if cs = [] ∧ 1 ≤ month ∧ month ≤ 12 ∧ 1 ≤ day ∧ day ≤ 31 ∧
          hour ≤ 23 ∧ minute ≤ 59 ∧ second ≤ 61 then
        some ⟨year, month, day, hour, minute, second, microsecond, tz⟩
      else Option.none
  match r with
  | some t => .ok t
  | Option.none =>
    .error ("ValueError: time data does not match format: " ++ s)

/-- `strptime` applied to a dynamic value: a non-string argument is a
`TypeError`. -/
def strptime_py (v : PyVal) : Except String Timestamp :=
  match v with
  | .str s => strptime_fixed s
  | _ => .error "TypeError: strptime() argument 1 must be str"

/-- The base64 alphabet value of a character, if any. -/
def b64val (c : Char) : Option Nat :=
  if 'A' ≤ c ∧ c ≤ 'Z' then some (c.toNat - 65)
  else if 'a' ≤ c ∧ c ≤ 'z' then some (c.toNat - 71)
  else if '0' ≤ c ∧ c ≤ '9' then some (c.toNat + 4)
  else if c = '+' then some 62
  else if c = '/' then some 63
  else Option.none

/-- Decode 6-bit groups into bytes: four groups give three bytes, a final
pair gives one byte, a final triple gives two; a single leftover group is
invalid. -/
def b64groups : List Nat → Except String (List Nat)
  | [] => .ok []
  | a :: b :: c :: d :: rest => do
    let tail ← b64groups rest
    .ok ([(a * 4 + b / 16) % 256, (b % 16 * 16 + c / 4) % 256,
          (c % 4 * 64 + d) % 256] ++ tail)
  | [a, b] => .ok [(a * 4 + b / 16) % 256]
  | [a, b, c] => .ok [(a * 4 + b / 16) % 256, (b % 16 * 16 + c / 4) % 256]
  | [_] => .error "binascii.Error: Invalid base64-encoded string"

/-- Modelled from the spec: Python `base64.b64decode` in its default lenient
mode — characters outside the alphabet and padding are discarded first, the
kept length must be a multiple of four, and data characters (up to the first
padding `=`) decode in groups.  Faithful on correctly padded input such as
the wire payloads considered here. -/
def b64decode_ascii (s : String) : Except String (List Nat) :=
  let kept := s.toList.filter fun c => (b64val c).isSome || c = '='
  if kept.length % 4 != 0 then
    .error "binascii.Error: Incorrect padding"
  else
    b64groups ((kept.takeWhile (· ≠ '=')).filterMap b64val)

/-- Modelled from the spec: `bytes.decode("utf-8")`, restricted to the ASCII
range (sufficient for the payloads considered; non-ASCII input is
conservatively a failure in this model). -/
def utf8_decode_ascii (bs : List Nat) : Except String String :=
  if bs.all (· < 128) then
    .ok (String.mk (bs.map fun b => Char.ofNat b))
  else .error "UnicodeDecodeError (model restricted to ASCII)"

/-- JSON whitespace skipping. -/
def skipWs (cs : List Char) : List Char :=
  cs.dropWhile fun c => c = ' ' ∨ c = '\t' ∨ c = '\n' ∨ c = '\r'

/-- Parse an optionally-signed decimal integer literal. -/
def parseIntLit (cs : List Char) : Option (Int × List Char) :=
  match cs with
  | '-' :: rest =>
    let p := parseDigitsUpTo 30 rest
    if p.1 = [] then Option.none
    else some (-(p.1.foldl (fun a c => a * 10 + (c.toNat - 48)) 0 : Nat), p.2)
  | _ =>
    let p := parseDigitsUpTo 30 cs
    if p.1 = [] then Option.none
    else some ((p.1.foldl (fun a c => a * 10 + (c.toNat - 48)) 0 : Nat), p.2)

/-- Take an expected literal keyword. -/
def expectLit : List Char → List Char → Option (List Char)
  | [], cs => some cs
  | l :: ls, c :: cs => if c = l then expectLit ls cs else Option.none
  | _ :: _, [] => Option.none

mutual

/-- Fuel-indexed JSON value parser (see `json_loads`). -/
def jsonVal : Nat → List Char → Option (PyVal × List Char)
  | 0, _ => Option.none
  | Nat.succ fuel, cs =>
    match skipWs cs with
    | [] => Option.none
    | c :: rest =>
      if c = 'n' then (expectLit ['u', 'l', 'l'] rest).map (PyVal.none, ·)
      else if c = 't' then
        (expectLit ['r', 'u', 'e'] rest).map (PyVal.bool true, ·)
      else if c = 'f' then
        (expectLit ['a', 'l', 's', 'e'] rest).map (PyVal.bool false, ·)
      else if c = '"' then
        let p := rest.span (· ≠ '"')
        match p.2 with
        | '"' :: rest2 => some (PyVal.str (String.mk p.1), rest2)
        | _ => Option.none
      else if c = '[' then
        match skipWs rest with
        | ']' :: rest2 => some (PyVal.list [], rest2)
        | cs2 => (jsonArr fuel cs2).map fun q => (PyVal.list q.1, q.2)
      else if c = Char.ofNat 123 then
        match skipWs rest with
        | c2 :: rest2 =>
          if c2 = Char.ofNat 125 then some (PyVal.dict [], rest2)
          else (jsonObj fuel (c2 :: rest2)).map fun q => (PyVal.dict q.1, q.2)
        | [] => Option.none
      else
        (parseIntLit (c :: rest)).map fun q => (PyVal.int q.1, q.2)

/-- One-or-more comma-separated JSON values followed by a closing bracket. -/
def jsonArr : Nat → List Char → Option (List PyVal × List Char)
  | 0, _ => Option.none
  | Nat.succ fuel, cs => do
    let (v, cs1) ← jsonVal fuel cs
    match skipWs cs1 with
    | ']' :: rest => some ([v], rest)
    | ',' :: rest => (jsonArr fuel rest).map fun q => (v :: q.1, q.2)
    | _ => Option.none

/-- One-or-more comma-separated JSON object members followed by a closing
brace. -/
def jsonObj : Nat → List Char → Option (List (String × PyVal) × List Char)
  | 0, _ => Option.none
  | Nat.succ fuel, cs =>
    match skipWs cs with
    | '"' :: rest =>
      let p := rest.span (· ≠ '"')
      match p.2 with
      | '"' :: rest2 =>
        match skipWs rest2 with
        | ':' :: rest3 => do
          let (v, cs1) ← jsonVal fuel rest3
          match skipWs cs1 with
          | c :: rest4 =>
            if c = Char.ofNat 125 then some ([(String.mk p.1, v)], rest4)
            else if c = ',' then
              (jsonObj fuel rest4).map fun q => ((String.mk p.1, v) :: q.1, q.2)
            else Option.none
          | [] => Option.none
        | _ => Option.none
      | _ => Option.none
    | _ => Option.none

end

/-- Modelled from the spec: the external JSON primitive (`json.loads`),
restricted to the JSON fragment exercised by the adaptor: objects, arrays,
escape-free strings, integers, booleans and null (floats and string escapes
are conservatively failures).  The whole input must be consumed. -/
def json_loads (s : String) : Except String PyVal :=
  match jsonVal (2 * s.length + 2) s.toList with
  | some (v, rest) =>
    if skipWs rest = [] then .ok v
    else .error "json.decoder.JSONDecodeError: Extra data"
  | Option.none => .error "json.decoder.JSONDecodeError"

/-!
## Event adaptation layer (`pubsub.py`)
-/

/-- `pubsub.Message`: the typed Pub/Sub message dataclass.  Python
dataclasses do not check field types at construction time, so every field is
dynamic — in particular `ordering_key` can hold `None` although it is
declared `str`. -/
structure Message where
  message_id : PyVal
  publish_time : PyVal
  attributes : PyVal
  data : PyVal
  ordering_key : PyVal

/-- The `Message.json` property: `None` data yields `None`; otherwise the
payload is base64-decoded, UTF-8-decoded and JSON-parsed lazily on access;
any failure (including a non-string payload) raises a `ValueError`. -/
def Message.json (m : Message) : Except String (Option PyVal) :=
  match m.data with
  | .none => .ok Option.none
  | .str s =>
    match b64decode_ascii s with
    | .ok bytes =>
      match utf8_decode_ascii bytes with
      | .ok text =>
        match json_loads text with
        | .ok v => .ok (some v)
        | .error e =>
          .error ("Unable to parse Pub/Sub message data as JSON: " ++ e)
      | .error e =>
        .error ("Unable to parse Pub/Sub message data as JSON: " ++ e)
    | .error e =>
      .error ("Unable to parse Pub/Sub message data as JSON: " ++ e)
  | _ =>
    .error "Unable to parse Pub/Sub message data as JSON: TypeError"

/-- `pubsub.MessagePublishedData`: message plus source subscription name. -/
structure MessagePublishedData where
  message : Message
  subscription : PyVal

/-- Modelled from the spec: `core.CloudEvent` (the typed envelope; `core.py`
is not part of this excerpt) — payload plus common metadata, as constructed
at the end of `_message_handler` (spec section 3, "Typed cloud event"). -/
structure CloudEvent where
  data : MessagePublishedData
  id : PyVal
  source : PyVal
  specversion : PyVal
  subject : PyVal
  time : Timestamp
  type : PyVal

/-- The raw inbound envelope (`cloudevents.http.CloudEvent`, an external
collaborator): an attribute dict (`raw._get_attributes()`) and a data
payload (`raw.get_data()`). -/
structure RawCloudEvent where
  attributes : List (String × PyVal)
  data : PyVal

/-- `event_dict = {"data": event_data, **event_attributes}`. -/
def event_dict_of (raw : RawCloudEvent) : List (String × PyVal) :=
  pyDictMerge [("data", raw.data)] raw.attributes

/-- Python `d[k]` on a dict: `KeyError` when absent. -/
def pyKeyLookup (d : List (String × PyVal)) (k : String) :
    Except String PyVal :=
  match d.lookup k with
  | some v => .ok v
  | Option.none => .error ("KeyError: " ++ k)

/-- Python `v[k]`: subscripting a non-dict value is a `TypeError`. -/
def pyGetItem (v : PyVal) (k : String) : Except String PyVal :=
  match v with
  | .dict d => pyKeyLookup d k
  | _ => .error "TypeError: object is not subscriptable"

/-- View a dynamic value as a dict (the adaptor indexes and mutates
`message_dict` throughout; a non-dict value fails on first use). -/
def asPyDict (v : PyVal) : Except String (List (String × PyVal)) :=
  match v with
  | .dict d => .ok d
  | _ => .error "TypeError: not a dict"

/-- The nested message dict of a raw envelope:
`data = event_dict["data"]; message_dict = data["message"]`. -/
def raw_message_dict (raw : RawCloudEvent) :
    Except String (List (String × PyVal)) := do
  let data ← pyKeyLookup (event_dict_of raw) "data"
  let msg ← pyGetItem data "message"
  asPyDict msg

/-- `Message(**message_dict, ordering_key=ordering_key)`: keyword expansion
must supply exactly the four remaining dataclass fields; a missing or an
unexpected keyword is a `TypeError`. -/
def message_from_dict (md : List (String × PyVal)) (ordering_key : PyVal) :
    Except String Message :=
  match md.lookup "message_id", md.lookup "publish_time",
      md.lookup "attributes", md.lookup "data" with
  | some mi, some pt, some at_, some d =>
    if md.all (fun kv =>
        ["message_id", "publish_time", "attributes", "data"].contains kv.1)
    then .ok ⟨mi, pt, at_, d, ordering_key⟩
    else .error "TypeError: unexpected keyword argument"
  | _, _, _, _ => .error "TypeError: missing required argument"

/-- `_message_handler` up to (but not including) the call of the developer's
handler: builds the typed event from the raw envelope, or fails.  Statement
order follows the source: message dict extraction, the two timestamp parses,
the in-place message-dict rewrites, message construction (with the
subscription lookup), then the envelope metadata lookups. -/
def message_handler_event (raw : RawCloudEvent) :
    Except String CloudEvent := do
  let event_dict := event_dict_of raw
  let md ← raw_message_dict raw
  let time ← strptime_py (← pyKeyLookup event_dict "time")
  let publish_time ← strptime_py (← pyKeyLookup md "publish_time")
  let md := dictSet md "publish_time" (.datetime publish_time)
  let md := dictPop md "messageId"
  let md := dictPop md "publishTime"
  let ordering_key := (md.lookup "orderingKey").getD .none
  let md := dictPop md "orderingKey"
  let md := dictSetOrAdd md "attributes"
    ((md.lookup "attributes").getD (.dict []))
  let msg ← message_from_dict md ordering_key
  let data ← pyKeyLookup event_dict "data"
  let subscription ← pyGetItem data "subscription"
  let id ← pyKeyLookup event_dict "id"
  let source ← pyKeyLookup event_dict "source"
  let specversion ← pyKeyLookup event_dict "specversion"
  let subject := (event_dict.lookup "subject").getD .none
  let type ← pyKeyLookup event_dict "type"
  pure ⟨⟨msg, subscription⟩, id, source, specversion, subject, time, type⟩

/-- `_message_handler(func, raw)`: adapt, then invoke the developer's handler
on the fully-constructed typed event; any adaptation failure propagates
before `func` runs. -/
def _message_handler {α : Type} (func : CloudEvent → α)
    (raw : RawCloudEvent) : Except String α :=
  (message_handler_event raw).map func

/-!
## Callable-request verification (`private/util.py`)
-/

/-- The inbound HTTPS request as the verification helpers see it (the HTTP
request library is an external collaborator): a method, a header multidict,
and `request.json`, Flask's parsed JSON body.  A missing, unparseable or
JSON-null body all surface as Python `None` (`PyVal.none`) — the code only
ever tests `request.json is None`. -/
structure Request where
  method : String
  headers : List (String × String)
  json : PyVal

/-- `request.headers.get(k)`: HTTP header lookup is case-insensitive in the
request library. -/
def headerGet (hs : List (String × String)) (k : String) : Option String :=
  (hs.find? fun kv => pyToLower kv.1 == pyToLower k).map (·.2)

/-- `_on_call_valid_method`: the method must be `POST`. -/
def _on_call_valid_method (r : Request) : Bool :=
  r.method == "POST"

/-- Python `s.index(c)`: position of the first occurrence, or a raised
`ValueError` (`Option.none`) when absent. -/
def pyStrIndex (s : String) (c : Char) : Option Nat :=
  s.toList.indexOf? c

/-- The content-type test of `_on_call_valid_content_type`: after cutting
everything from the first `;` and stripping whitespace (only when a `;`
occurs — a missing separator raises `ValueError`, which the source swallows,
leaving the header unchanged), the value must equal `application/json`
case-insensitively. -/
def content_type_ok (content_type : String) : Bool :=
  (match pyStrIndex content_type ';' with
    | some i => pyTrim (String.mk (content_type.toList.take i))
    | Option.none => content_type) |> pyToLower |> (· == "application/json")

/-- `_on_call_valid_content_type`: the `Content-Type` header must be present
and pass `content_type_ok`. -/
def _on_call_valid_content_type (r : Request) : Bool :=
  match headerGet r.headers "Content-Type" with
  | Option.none => false
  | some content_type => content_type_ok content_type

/-- Python `x in v`: key membership for dicts, element membership for lists,
substring for strings; anything else is a `TypeError`. -/
def pyIn (needle v : PyVal) : Except String Bool :=
  match v with
  | .dict kvs =>
    match needle with
    | .str s => .ok ((kvs.lookup s).isSome)
    | _ => .ok false
  | .list xs => .ok (xs.any (PyVal.pyEq needle))
  | .str s =>
    match needle with
    | .str n => .ok (listContainsSub n.toList s.toList)
    | _ => .error "TypeError: 'in <string>' requires string"
  | _ => .error "TypeError: argument is not iterable"

/-- Python `v.keys()`: only dicts have it (`AttributeError` otherwise). -/
def pyKeys (v : PyVal) : Except String (List String) :=
  match v with
  | .dict kvs => .ok (kvs.map (·.1))
  | _ => .error "AttributeError: object has no attribute keys"

/-- `_on_call_valid_body`: the body must be present, contain a `data` key
and no other top-level key.  A present non-dict body can raise (Python
`in` on a non-container, or `.keys()` on a non-dict), hence the `Except`. -/
def _on_call_valid_body (r : Request) : Except String Bool :=
  if r.json.isNone then .ok false
  else do
    let hasData ← pyIn (.str "data") r.json
    if !hasData then .ok false
    else do
      let ks ← pyKeys r.json
      let extra_keys := ks.filter (· ≠ "data")
      .ok (extra_keys.length == 0)

/-- `valid_on_call_request`: method, content type and body checks combined
with Python short-circuit `and`. -/
def valid_on_call_request (r : Request) : Except String Bool :=
  if !(_on_call_valid_method r) then .ok false
  else if !(_on_call_valid_content_type r) then .ok false
  else _on_call_valid_body r

/-- `OnCallTokenState`. -/
inductive OnCallTokenState where
  | MISSING
  | VALID
  | INVALID
  deriving DecidableEq, Repr

/-- `_OnCallTokenVerification`: both verdicts default to `INVALID`, both
claim sets to `None`. -/
structure OnCallTokenVerification where
  app : OnCallTokenState
  app_token : Option (List (String × PyVal))
  auth : OnCallTokenState
  auth_token : Option (List (String × PyVal))

/-- The dataclass defaults of `_OnCallTokenVerification`. -/
def OnCallTokenVerification.init : OnCallTokenVerification :=
  ⟨.INVALID, Option.none, .INVALID, Option.none⟩

/-- Modelled from the spec: an external token verifier,
"verify(token) → claims or failure" — `some claims` on success,
`Option.none` when the verifier raises. -/
def Verifier : Type := String → Option (List (String × PyVal))

/-- The three possible returns of the per-token checkers: Python `None`, the
`INVALID` marker, or a claims dict. -/
inductive TokenCheck where
  | noneR
  | invalidR
  | claims (d : List (String × PyVal))

/-- `_on_call_check_auth_token`: absent header returns `None`; a header
without the `Bearer ` prefix is `INVALID`; otherwise the verifier runs on
the header with every occurrence of `"Bearer "` removed (Python
`str.replace` replaces all occurrences), and a raising verifier is caught
as `INVALID`. -/
def _on_call_check_auth_token (verify_id_token : Verifier) (r : Request) :
    TokenCheck :=
  match headerGet r.headers "Authorization" with
  | Option.none => .noneR
  | some authorization =>
    if !(pyStartsWith authorization "Bearer ") then .invalidR
    else
      match verify_id_token (pyReplace authorization "Bearer " "") with
      | some auth_token => .claims auth_token
      | Option.none => .invalidR

/-- `_on_call_check_app_token`: absent header returns `None`; otherwise the
verifier runs on the raw header value and a raising verifier is caught as
`INVALID` (no bearer-prefix handling for app-check). -/
def _on_call_check_app_token (verify_token : Verifier) (r : Request) :
    TokenCheck :=
  match headerGet r.headers "X-Firebase-AppCheck" with
  | Option.none => .noneR
  | some app_check =>
    match verify_token app_check with
    | some app_token => .claims app_token
    | Option.none => .invalidR

/-- `on_call_check_tokens`: starts from the all-`INVALID` defaults, then
upgrades each side to `MISSING` (checker returned `None`) or `VALID` with
claims attached (checker returned a dict); a checker returning `INVALID`
leaves the default.  The observability log emitted by the source does not
affect the returned verdict and is not modelled.  Total: it always returns
a verdict. -/
def on_call_check_tokens (verify_id_token verify_app_token : Verifier)
    (r : Request) : OnCallTokenVerification :=
  let verifications := OnCallTokenVerification.init
  let verifications :=
    match _on_call_check_auth_token verify_id_token r with
    | .noneR => { verifications with auth := .MISSING }
    | .claims d =>
      { verifications with auth := .VALID, auth_token := some d }
    | .invalidR => verifications
  match _on_call_check_app_token verify_app_token r with
  | .noneR => { verifications with app := .MISSING }
  | .claims d => { verifications with app := .VALID, app_token := some d }
  | .invalidR => verifications

/-!
## Concrete inputs used in the claim theorems
-/

/-- Whether an `Except` computation succeeded. -/
def exceptIsOk {ε α : Type} : Except ε α → Bool
  | .ok _ => true
  | .error _ => false

/-- `RuntimeOptions(secrets=USE_DEFAULT)`: an option record whose `secrets`
field is set to the reset-to-default sentinel. -/
def c2_options : RuntimeOptions :=
  { RuntimeOptions.empty with secrets := PyVal.sentinel }

/-- The round-trip raw Pub/Sub envelope of the spec: `orderingKey: "k1"`,
`messageId: "m1"` (with its authoritative snake-case twin), `publishTime`
and `publish_time` at `2022-01-01T00:00:00.000000+00:00`, and a `data`
payload that is the base64 encoding of the JSON text with a single field
`x` mapped to `1`. -/
def c6_raw : RawCloudEvent :=
  ⟨[("id", .str "1"),
    ("source", .str "//pubsub.googleapis.com/projects/p/topics/t"),
    ("specversion", .str "1.0"),
    ("time", .str "2022-01-01T00:00:00.000000+00:00"),
    ("type", .str "google.cloud.pubsub.topic.v1.messagePublished")],
   .dict [("message", .dict
      [("message_id", .str "m1"), ("messageId", .str "m1"),
       ("publish_time", .str "2022-01-01T00:00:00.000000+00:00"),
       ("publishTime", .str "2022-01-01T00:00:00.000000+00:00"),
       ("orderingKey", .str "k1"),
       ("data", .str "eyJ4IjoxfQ==")]),
     ("subscription", .str "projects/p/subscriptions/s")]⟩

/-- The message dict of `c6_raw` after the adaptor's in-place rewrites, as
passed to the `Message` constructor. -/
def c6_processed_dict : List (String × PyVal) :=
  [("message_id", .str "m1"),
   ("publish_time", .datetime ⟨2022, 1, 1, 0, 0, 0, 0, 0⟩),
   ("data", .str "eyJ4IjoxfQ=="),
   ("attributes", .dict [])]

/-- The typed message constructed from `c6_raw`. -/
def c6_message : Message :=
  ⟨.str "m1", .datetime ⟨2022, 1, 1, 0, 0, 0, 0, 0⟩, .dict [],
   .str "eyJ4IjoxfQ==", .str "k1"⟩

/-- `c6_raw` with a malformed top-level timestamp. -/
def c7_badtime_raw : RawCloudEvent :=
  ⟨[("id", .str "1"),
    ("source", .str "//pubsub.googleapis.com/projects/p/topics/t"),
    ("specversion", .str "1.0"),
    ("time", .str "not-a-timestamp"),
    ("type", .str "google.cloud.pubsub.topic.v1.messagePublished")],
   c6_raw.data⟩

/-- `c6_raw` with the required `publish_time` field missing from the nested
message object. -/
def c7_missing_raw : RawCloudEvent :=
  ⟨c6_raw.attributes,
   .dict [("message", .dict
      [("message_id", .str "m1"), ("messageId", .str "m1"),
       ("orderingKey", .str "k1"),
       ("data", .str "eyJ4IjoxfQ==")]),
     ("subscription", .str "projects/p/subscriptions/s")]⟩

/-- `c6_raw` with a payload that is neither valid base64 nor JSON. -/
def c7_badpayload_raw : RawCloudEvent :=
  ⟨c6_raw.attributes,
   .dict [("message", .dict
      [("message_id", .str "m1"), ("messageId", .str "m1"),
       ("publish_time", .str "2022-01-01T00:00:00.000000+00:00"),
       ("publishTime", .str "2022-01-01T00:00:00.000000+00:00"),
       ("orderingKey", .str "k1"),
       ("data", .str "!!!")]),
     ("subscription", .str "projects/p/subscriptions/s")]⟩

/-- `c6_raw` with no `orderingKey` field on the nested message object. -/
def c10_raw : RawCloudEvent :=
  ⟨c6_raw.attributes,
   .dict [("message", .dict
      [("message_id", .str "m1"), ("messageId", .str "m1"),
       ("publish_time", .str "2022-01-01T00:00:00.000000+00:00"),
       ("publishTime", .str "2022-01-01T00:00:00.000000+00:00"),
       ("data", .str "eyJ4IjoxfQ==")]),
     ("subscription", .str "projects/p/subscriptions/s")]⟩

/-- The raw message dict of `c10_raw`. -/
def c10_md : List (String × PyVal) :=
  [("message_id", .str "m1"), ("messageId", .str "m1"),
   ("publish_time", .str "2022-01-01T00:00:00.000000+00:00"),
   ("publishTime", .str "2022-01-01T00:00:00.000000+00:00"),
   ("data", .str "eyJ4IjoxfQ==")]

/-- The typed event adapted from `c10_raw`. -/
def c10_event : CloudEvent :=
  ⟨⟨⟨.str "m1", .datetime ⟨2022, 1, 1, 0, 0, 0, 0, 0⟩, .dict [],
     .str "eyJ4IjoxfQ==", .none⟩,
    .str "projects/p/subscriptions/s"⟩,
   .str "1", .str "//pubsub.googleapis.com/projects/p/topics/t",
   .str "1.0", .none, ⟨2022, 1, 1, 0, 0, 0, 0, 0⟩,
   .str "google.cloud.pubsub.topic.v1.messagePublished"⟩

/-- A callable request whose JSON body has the extra top-level key
`extra` next to `data`. -/
def c8_extra_request : Request :=
  ⟨"POST", [("Content-Type", "application/json")],
   .dict [("data", .dict []), ("extra", .int 1)]⟩

/-- An external verifier that raises on every token. -/
def failing_verifier : Verifier := fun _ => Option.none

/-- An external verifier that accepts every token with a fixed claims
dict. -/
def accepting_verifier : Verifier := fun _ => some [("uid", .str "u1")]

/-- A callable request with `Authorization: Bearer badtoken`. -/
def c9_bearer_request : Request :=
  ⟨"POST", [("Authorization", "Bearer badtoken")], .none⟩

/-- A callable request with no `Authorization` header. -/
def c9_noauth_request : Request :=
  ⟨"POST", [], .none⟩

/-!
## Dictionary lemmas
-/

@[simp]
theorem lookup_dictSet (d : List (String × PyVal)) (k kq : String)
    (v : PyVal) :
    (dictSet d kq v).lookup k =
      if k == kq then (d.lookup k).map (fun _ => v) else d.lookup k := by
  induction d with
  | nil => simp [dictSet]
  | cons a t ih =>
    obtain ⟨ka, va⟩ := a
    have hstep : dictSet ((ka, va) :: t) kq v =
        (if ka == kq then (ka, v) else (ka, va)) :: dictSet t kq v := rfl
    rw [hstep, List.lookup_cons, List.lookup_cons]
    simp only [apply_ite (Prod.fst), apply_ite (Prod.snd), ite_self]
    cases hk : k == ka with
    | true =>
      have he : k = ka := eq_of_beq hk
      subst he
      cases hka : k == kq with
      | true =>
        have he2 : k = kq := eq_of_beq hka
        subst he2
        simp [hka]
      | false => simp [hka]
    | false =>
      rw [ih]

@[simp]
theorem lookup_dictPop (d : List (String × PyVal)) (k kq : String) :
    (dictPop d kq).lookup k =
      if k == kq then Option.none else d.lookup k := by
  induction d with
  | nil => simp [dictPop]
  | cons a t ih =>
    obtain ⟨ka, va⟩ := a
    have hstep : dictPop ((ka, va) :: t) kq =
        if ka != kq then (ka, va) :: dictPop t kq else dictPop t kq := by
      simp only [dictPop, List.filter]
      cases h : ka != kq <;> rfl
    rw [hstep]
    cases hka : ka == kq with
    | true =>
      have he : ka = kq := eq_of_beq hka
      subst he
      simp only [bne, hka, Bool.not_true, if_neg Bool.false_ne_true]
      rw [ih]
      cases hk : k == ka with
      | true =>
        have he2 : k = ka := eq_of_beq hk
        subst he2
        simp [hk]
      | false => simp [List.lookup_cons, hk]
    | false =>
      simp only [bne, hka, Bool.not_false, if_true]
      rw [List.lookup_cons, List.lookup_cons]
      cases hk : k == ka with
      | true =>
        have he2 : k = ka := eq_of_beq hk
        subst he2
        have hkq : (k == kq) = false := hka
        simp [hkq]
      | false => rw [ih]

theorem lookup_mergeStep_ne (g acc : List (String × PyVal))
    (kv : String × PyVal) (k : String) (h : k ≠ kv.1) :
    (mergeStep g acc kv).lookup k = acc.lookup k := by
  unfold mergeStep
  by_cases hc : kv.2.isNone && (g.lookup kv.1).isSome
  · simp [hc, beq_false_of_ne h]
  · simp [hc]

theorem lookup_foldl_mergeStep_not_mem (g : List (String × PyVal)) :
    ∀ (ps acc : List (String × PyVal)) (k : String),
      k ∉ ps.map Prod.fst →
      ((ps.foldl (mergeStep g) acc).lookup k) = acc.lookup k := by
  intro ps
  induction ps with
  | nil => intro acc k _; rfl
  | cons p t ih =>
    intro acc k hk
    simp only [List.map_cons, List.mem_cons, not_or] at hk
    rw [List.foldl_cons, ih _ _ hk.2, lookup_mergeStep_ne _ _ _ _ hk.1]

theorem lookup_foldl_mergeStep_mem (g : List (String × PyVal)) :
    ∀ (ps acc : List (String × PyVal)) (k : String) (v : PyVal),
      (ps.map Prod.fst).Nodup → (k, v) ∈ ps →
      ((ps.foldl (mergeStep g) acc).lookup k) =
        if v.isNone && (g.lookup k).isSome then
          (acc.lookup k).map (fun _ => (g.lookup k).getD PyVal.none)
        else acc.lookup k := by
  intro ps
  induction ps with
  | nil => intro acc k v _ hm; cases hm
  | cons p t ih =>
    intro acc k v hnd hm
    simp only [List.map_cons, List.nodup_cons] at hnd
    rcases List.mem_cons.mp hm with hp | ht
    · subst hp
      rw [List.foldl_cons,
        lookup_foldl_mergeStep_not_mem g t _ _ (by simpa using hnd.1)]
      unfold mergeStep
      by_cases hc : v.isNone && (g.lookup k).isSome
      · simp [hc]
      · simp [hc]
    · have hne : k ≠ p.1 := by
        intro he
        exact hnd.1 (he ▸ (List.mem_map.mpr ⟨(k, v), ht, rfl⟩))
      rw [List.foldl_cons, ih _ _ _ hnd.2 ht,
        lookup_mergeStep_ne _ _ _ _ hne]

theorem lookup_none_of_all_keys (md : List (String × PyVal))
    (L : List String) (k : String)
    (hall : md.all (fun kv => L.contains kv.1) = true)
    (hk : L.contains k = false) : md.lookup k = Option.none := by
  induction md with
  | nil => rfl
  | cons a t ih =>
    simp only [List.all_cons, Bool.and_eq_true] at hall
    have hne : k ≠ a.1 := by
      intro he
      rw [he] at hk
      rw [hall.1] at hk
      cases hk
    obtain ⟨ka, va⟩ := a
    simp only [List.lookup_cons, beq_false_of_ne hne]
    exact ih hall.2

end Firebase

namespace Firebase

theorem runtimeKeys_nodup (l : RuntimeOptions) :
    (l.asdict.map Prod.fst).Nodup := by
  rw [show l.asdict.map Prod.fst = ["region", "memory", "timeout_sec",
    "min_instances", "max_instances", "concurrency", "cpu", "vpc_connector",
    "vpc_connector_egress_settings", "service_account", "ingress", "labels",
    "secrets"] from rfl]
  decide

end Firebase

namespace Firebase

/-!
## Merge lemmas for the options layer
-/

theorem pubsubKeys_nodup (l : PubSubOptions) :
    (l.asdict.map Prod.fst).Nodup := by
  rw [show l.asdict.map Prod.fst = ["region", "memory", "timeout_sec",
    "min_instances", "max_instances", "concurrency", "cpu", "vpc_connector",
    "vpc_connector_egress_settings", "service_account", "ingress", "labels",
    "secrets", "retry", "topic"] from rfl]
  decide

theorem merged_base_field (l g : RuntimeOptions) (k : String) (vl vg : PyVal)
    (hmem : (k, vl) ∈ l.asdict)
    (hl : (pyDictMerge g.asdict l.asdict).lookup k = some vl)
    (hg : g.asdict.lookup k = some vg) :
    (asdict_with_global_options l.asdict g.asdict).lookup k =
      some (if vl.isNone then vg else vl) := by
  rw [asdict_with_global_options,
    lookup_foldl_mergeStep_mem _ _ _ _ vl (runtimeKeys_nodup l) hmem, hg, hl]
  by_cases hm : vl.isNone = true <;> simp [hm]

theorem merged_extra_field (l : PubSubOptions) (g : RuntimeOptions)
    (k : String) (vl : PyVal) (hmem : (k, vl) ∈ l.asdict)
    (hl : (pyDictMerge g.asdict l.asdict).lookup k = some vl)
    (hg : g.asdict.lookup k = Option.none) :
    (asdict_with_global_options l.asdict g.asdict).lookup k = some vl := by
  rw [asdict_with_global_options,
    lookup_foldl_mergeStep_mem _ _ _ _ vl (pubsubKeys_nodup l) hmem, hg, hl]
  simp

/-!
## Claim theorems
-/

/-- C1.  Merge contract of `RuntimeOptions._asdict_with_global_options`: for
every base-record field, a non-absent per-function value (including the
reset-to-default sentinel, which passes through unmodified) wins over the
global default; an absent per-function value falls back to the global
default's stored value, which may itself be absent; and trigger-specific
fields with no counterpart on the global record (here `retry` and `topic` of
`PubSubOptions`) pass through unchanged. -/
theorem C1_merge_contract :
    (∀ l g : RuntimeOptions,
      (asdict_with_global_options l.asdict g.asdict).lookup "region" =
        some (if l.region.isNone then g.region else l.region) ∧
      (asdict_with_global_options l.asdict g.asdict).lookup "memory" =
        some (if l.memory.isNone then g.memory else l.memory) ∧
      (asdict_with_global_options l.asdict g.asdict).lookup "timeout_sec" =
        some (if l.timeout_sec.isNone then g.timeout_sec else l.timeout_sec) ∧
      (asdict_with_global_options l.asdict g.asdict).lookup "min_instances" =
        some (if l.min_instances.isNone then g.min_instances
          else l.min_instances) ∧
      (asdict_with_global_options l.asdict g.asdict).lookup "max_instances" =
        some (if l.max_instances.isNone then g.max_instances
          else l.max_instances) ∧
      (asdict_with_global_options l.asdict g.asdict).lookup "concurrency" =
        some (if l.concurrency.isNone then g.concurrency else l.concurrency) ∧
      (asdict_with_global_options l.asdict g.asdict).lookup "cpu" =
        some (if l.cpu.isNone then g.cpu else l.cpu) ∧
      (asdict_with_global_options l.asdict g.asdict).lookup "vpc_connector" =
        some (if l.vpc_connector.isNone then g.vpc_connector
          else l.vpc_connector) ∧
      (asdict_with_global_options l.asdict
          g.asdict).lookup "vpc_connector_egress_settings" =
        some (if l.vpc_connector_egress_settings.isNone then
          g.vpc_connector_egress_settings
          else l.vpc_connector_egress_settings) ∧
      (asdict_with_global_options l.asdict g.asdict).lookup
          "service_account" =
        some (if l.service_account.isNone then g.service_account
          else l.service_account) ∧
      (asdict_with_global_options l.asdict g.asdict).lookup "ingress" =
        some (if l.ingress.isNone then g.ingress else l.ingress) ∧
      (asdict_with_global_options l.asdict g.asdict).lookup "labels" =
        some (if l.labels.isNone then g.labels else l.labels) ∧
      (asdict_with_global_options l.asdict g.asdict).lookup "secrets" =
        some (if l.secrets.isNone then g.secrets else l.secrets)) ∧
    (∀ (l : PubSubOptions) (g : RuntimeOptions),
      (asdict_with_global_options l.asdict g.asdict).lookup "retry" =
        some l.retry ∧
      (asdict_with_global_options l.asdict g.asdict).lookup "topic" =
        some l.topic) := by
  constructor
  · intro l g
    refine ⟨?_, ?_, ?_, ?_, ?_, ?_, ?_, ?_, ?_, ?_, ?_, ?_, ?_⟩ <;>
      exact merged_base_field l g _ _ _
        (by simp [RuntimeOptions.asdict]) rfl rfl
  · intro l g
    exact ⟨merged_extra_field l g _ _
      (by simp [PubSubOptions.asdict, RuntimeOptions.asdict]) rfl rfl,
      merged_extra_field l g _ _
      (by simp [PubSubOptions.asdict, RuntimeOptions.asdict]) rfl rfl⟩

/-- C2.  Evaluation of the manifest builder at the failing input
`RuntimeOptions(secrets=USE_DEFAULT)`: the produced manifest entry carries
the empty list — not the sentinel — on `secretEnvironmentVariables`, because
the source's `options.secrets is _util.Sentinel` compares against the
`Sentinel` class, which the `USE_DEFAULT` instance never is. -/
theorem C2_secrets_sentinel_dropped :
    (RuntimeOptions._endpoint c2_options RuntimeOptions.empty
        (some "fn")).map (fun e => e.secretEnvironmentVariables) =
      .ok (PyVal.list []) ∧
    (RuntimeOptions._endpoint c2_options RuntimeOptions.empty
        (some "fn")).map (fun e => e.secretEnvironmentVariables.isSentinel) =
      .ok false :=
  ⟨rfl, rfl⟩

/-- C3 counterexample.  `set_global_options()` with no arguments does not
leave `cpu` absent: the declared keyword default sets it to the string
`"gcf_gen1"`. -/
theorem C3_cpu_not_absent :
    set_global_options_no_args.cpu = PyVal.str "gcf_gen1" ∧
      set_global_options_no_args.cpu.isNone = false :=
  ⟨rfl, rfl⟩

/-- C3 (amended).  `set_global_options` replaces the process-wide default
record wholesale — the previous record is never read — with a record built
from exactly the supplied keyword arguments; every field not supplied takes
its declared default, which is absent for every field except `cpu`, whose
default is `"gcf_gen1"`. -/
theorem C3_wholesale_replacement :
    (∀ (prev prev2 : RuntimeOptions) (region memory timeout_sec min_instances
        max_instances concurrency cpu vpc_connector
        vpc_connector_egress_settings service_account ingress labels
        secrets : PyVal),
      set_global_options_step prev region memory timeout_sec min_instances
          max_instances concurrency cpu vpc_connector
          vpc_connector_egress_settings service_account ingress labels
          secrets =
        set_global_options_step prev2 region memory timeout_sec min_instances
          max_instances concurrency cpu vpc_connector
          vpc_connector_egress_settings service_account ingress labels
          secrets) ∧
    (∀ (region memory timeout_sec min_instances max_instances concurrency cpu
        vpc_connector vpc_connector_egress_settings service_account ingress
        labels secrets : PyVal),
      set_global_options region memory timeout_sec min_instances
          max_instances concurrency cpu vpc_connector
          vpc_connector_egress_settings service_account ingress labels
          secrets =
        ⟨region, memory, timeout_sec, min_instances, max_instances,
         concurrency, cpu, vpc_connector, vpc_connector_egress_settings,
         service_account, ingress, labels, secrets⟩) ∧
    set_global_options_no_args =
      ⟨.none, .none, .none, .none, .none, .none, .str "gcf_gen1", .none,
       .none, .none, .none, .none, .none⟩ :=
  ⟨fun _ _ _ _ _ _ _ _ _ _ _ _ _ _ _ => rfl,
   fun _ _ _ _ _ _ _ _ _ _ _ _ _ => rfl, rfl⟩

/-- C4.  Evaluation of the registration path of `on_message_published`: for
every Pub/Sub options record, global record and function name, the manifest
entry attached by the decorator carries no event-trigger block at all
(`PubSubOptions` does not override `_endpoint`, so the inherited base
builder leaves `eventTrigger` absent). -/
theorem C4_pubsub_endpoint_has_no_event_trigger :
    ∀ (options : PubSubOptions) (GLOBAL_OPTIONS : RuntimeOptions)
      (func_name : String),
      (on_message_published_endpoint options GLOBAL_OPTIONS func_name).map
        (fun e => e.eventTrigger) = .ok Option.none :=
  fun _ _ _ => rfl

end Firebase

namespace Firebase

/-- C5.  Database-trigger filters: the manifest builder embeds exactly the
event-trigger block computed by `db_event_trigger`; there the `instance`
value goes under path-pattern filters precisely when it contains `'*'` and
under exact filters otherwise, and the reference, stripped of leading and
trailing `'/'`, is always a path-pattern filter — e.g. `instance="prod-*"`
is a path pattern, `instance="prod-1"` an exact filter, and
`reference="/foo/bar/"` appears as `"foo/bar"`. -/
theorem C5_database_filters :
    (∀ (d : DatabaseOptions) (g : RuntimeOptions) (fn et : String),
      (DatabaseOptions._endpoint d g (some fn) (some et)).map
          (fun e => e.eventTrigger) =
        .ok (some (db_event_trigger d.reference d.db_instance et))) ∧
    (∀ (reference inst et : String),
      (containsStar inst = true →
        (db_event_trigger reference (some inst) et).eventFilterPathPatterns =
          [("ref", stripSlashes reference), ("instance", inst)] ∧
        (db_event_trigger reference (some inst) et).eventFilters = []) ∧
      (containsStar inst = false →
        (db_event_trigger reference (some inst) et).eventFilters =
          [("instance", inst)] ∧
        (db_event_trigger reference (some inst) et).eventFilterPathPatterns =
          [("ref", stripSlashes reference)])) ∧
    (db_event_trigger "/foo/bar/" (some "prod-*")
        "et").eventFilterPathPatterns =
      [("ref", "foo/bar"), ("instance", "prod-*")] ∧
    (db_event_trigger "/foo/bar/" (some "prod-*") "et").eventFilters = [] ∧
    (db_event_trigger "/foo/bar/" (some "prod-1") "et").eventFilters =
      [("instance", "prod-1")] ∧
    (db_event_trigger "/foo/bar/" (some "prod-1")
        "et").eventFilterPathPatterns = [("ref", "foo/bar")] := by
  refine ⟨fun d g fn et => rfl, fun r i et =>
    ⟨fun h => ⟨?_, ?_⟩, fun h => ⟨?_, ?_⟩⟩, rfl, rfl, rfl, rfl⟩ <;>
    simp [db_event_trigger, h]

/-- C5 witness: both branches of the filter-placement rule instantiated at
concrete instances. -/
theorem C5_database_filters_witness :
    (db_event_trigger "/a/" (some "x*y") "t").eventFilterPathPatterns =
      [("ref", "a"), ("instance", "x*y")] ∧
    (db_event_trigger "/a/" (some "xy") "t").eventFilters =
      [("instance", "xy")] :=
  ⟨((C5_database_filters.2.1 "/a/" "x*y" "t").1 rfl).1,
   ((C5_database_filters.2.1 "/a/" "xy" "t").2 rfl).1⟩

/-- C6.  Round-trip of the adaptor on the spec's concrete envelope: the
adapted event's message has `ordering_key = "k1"`, its `publish_time` is the
parsed UTC midnight of 2022-01-01, its lazy `json` accessor yields the
object mapping `x` to `1`, and any successfully constructed message comes
from a dict carrying neither camel-case key `messageId` nor `publishTime`
(so they do not appear on the constructed object). -/
theorem C6_roundtrip :
    (message_handler_event c6_raw).map (fun e => e.data.message.ordering_key)
      = .ok (.str "k1") ∧
    (message_handler_event c6_raw).map (fun e => e.data.message.publish_time)
      = .ok (.datetime ⟨2022, 1, 1, 0, 0, 0, 0, 0⟩) ∧
    (message_handler_event c6_raw).map (fun e => e.data.message.json)
      = .ok (.ok (some (.dict [("x", .int 1)]))) ∧
    (∀ (md : List (String × PyVal)) (o : PyVal) (m : Message),
      message_from_dict md o = .ok m →
      md.lookup "messageId" = Option.none ∧
      md.lookup "publishTime" = Option.none) := by
  refine ⟨rfl, rfl, rfl, fun md o m h => ?_⟩
  unfold message_from_dict at h
  split at h
  · split at h
    · rename_i hall
      exact ⟨lookup_none_of_all_keys md
          ["message_id", "publish_time", "attributes", "data"] _ hall rfl,
        lookup_none_of_all_keys md
          ["message_id", "publish_time", "attributes", "data"] _ hall rfl⟩
    · cases h
  · cases h

/-- C6 witness: the camel-case-free construction fact applied to the message
dict actually produced from the round-trip envelope. -/
theorem C6_roundtrip_witness :
    message_from_dict c6_processed_dict (.str "k1") = .ok c6_message ∧
    c6_processed_dict.lookup "messageId" = Option.none ∧
    c6_processed_dict.lookup "publishTime" = Option.none :=
  ⟨rfl, (C6_roundtrip.2.2.2 c6_processed_dict (.str "k1") c6_message rfl).1,
   (C6_roundtrip.2.2.2 c6_processed_dict (.str "k1") c6_message rfl).2⟩

end Firebase

namespace Firebase

/-- C7 counterexample.  An envelope whose payload is neither base64 nor JSON
(`c7_badpayload_raw`) still reaches the developer's handler: the adaptor
returns the handler's result instead of raising, and only the lazy `json`
accessor of the delivered message fails. -/
theorem C7_nonjson_payload_reaches_handler :
    _message_handler (fun _ => true) c7_badpayload_raw = .ok true ∧
    (message_handler_event c7_badpayload_raw).map
      (fun e => exceptIsOk e.data.message.json) = .ok false :=
  ⟨rfl, rfl⟩

/-- C7 (amended).  Adaptation failures before the handler: a raw envelope
whose message-dict extraction fails, whose top-level `time` does not parse,
or whose message lacks `publish_time`, makes the adaptor fail before the
handler runs (the handler, typed on the fully built event, can never see a
partial envelope); but a non-JSON payload does not — shown concretely, the
handler is invoked and only the lazy `json` accessor fails afterwards. -/
theorem C7_adaptation_failure_boundary :
    (∀ (f : CloudEvent → Bool) (raw : RawCloudEvent),
      exceptIsOk (raw_message_dict raw) = false →
      exceptIsOk (_message_handler f raw) = false) ∧
    (∀ (f : CloudEvent → Bool) (raw : RawCloudEvent)
        (md : List (String × PyVal)) (ts : String),
      raw_message_dict raw = .ok md →
      (event_dict_of raw).lookup "time" = some (.str ts) →
      exceptIsOk (strptime_fixed ts) = false →
      exceptIsOk (_message_handler f raw) = false) ∧
    (∀ (f : CloudEvent → Bool) (raw : RawCloudEvent)
        (md : List (String × PyVal)),
      raw_message_dict raw = .ok md →
      md.lookup "publish_time" = Option.none →
      exceptIsOk (_message_handler f raw) = false) ∧
    _message_handler (fun _ => true) c7_badpayload_raw = .ok true ∧
    (message_handler_event c7_badpayload_raw).map
      (fun e => exceptIsOk e.data.message.json) = .ok false := by
  refine ⟨fun f raw h => ?_, fun f raw md ts hmd ht hbad => ?_,
    fun f raw md hmd hnopt => ?_, rfl, rfl⟩
  · unfold _message_handler message_handler_event
    cases hr : raw_message_dict raw with
    | error s => simp [bind, Except.bind, hr, exceptIsOk, Except.map]
    | ok md =>
      rw [hr] at h
      simp [exceptIsOk] at h
  · unfold _message_handler message_handler_event
    simp only [hmd, bind, Except.bind, pyKeyLookup, ht]
    cases hs : strptime_fixed ts with
    | error s => simp [strptime_py, hs, exceptIsOk, Except.map]
    | ok t =>
      rw [hs] at hbad
      simp [exceptIsOk] at hbad
  · unfold _message_handler message_handler_event
    simp only [hmd, bind, Except.bind]
    cases hT : pyKeyLookup (event_dict_of raw) "time" with
    | error s => simp [hT, exceptIsOk, Except.map]
    | ok v =>
      cases hS : strptime_py v with
      | error s => simp [hT, hS, exceptIsOk, Except.map]
      | ok t => simp [hT, hS, pyKeyLookup, hnopt, exceptIsOk, Except.map]

/-- C7 witness: the three failure conjuncts instantiated — an envelope with
no message object, the bad-timestamp envelope, and the missing
`publish_time` envelope. -/
theorem C7_adaptation_failure_boundary_witness :
    exceptIsOk (_message_handler (fun _ => true)
      (RawCloudEvent.mk [] PyVal.none)) = false ∧
    exceptIsOk (_message_handler (fun _ => true) c7_badtime_raw) = false ∧
    exceptIsOk (_message_handler (fun _ => true) c7_missing_raw) = false :=
  ⟨C7_adaptation_failure_boundary.1 (fun _ => true)
      (RawCloudEvent.mk [] PyVal.none) rfl,
   C7_adaptation_failure_boundary.2.1 (fun _ => true) c7_badtime_raw
      [("message_id", .str "m1"), ("messageId", .str "m1"),
       ("publish_time", .str "2022-01-01T00:00:00.000000+00:00"),
       ("publishTime", .str "2022-01-01T00:00:00.000000+00:00"),
       ("orderingKey", .str "k1"), ("data", .str "eyJ4IjoxfQ==")]
      "not-a-timestamp" rfl rfl rfl,
   C7_adaptation_failure_boundary.2.2.1 (fun _ => true) c7_missing_raw
      [("message_id", .str "m1"), ("messageId", .str "m1"),
       ("orderingKey", .str "k1"), ("data", .str "eyJ4IjoxfQ==")]
      rfl rfl⟩

end Firebase

namespace Firebase

/-- C8.  Shape validation of callable requests: `valid_on_call_request`
returns true exactly when the method is `POST`, the `Content-Type` header is
present and — with any parameter suffix after `;` (and the whitespace around
the separator) ignored — equals `application/json` case-insensitively, and
the parsed JSON body is an object with a `data` key and no other top-level
key; in particular the body with the extra key `extra` fails. -/
theorem C8_validate_shape :
    (∀ r : Request,
      valid_on_call_request r = .ok true ↔
        (r.method = "POST" ∧
         (∃ ct, headerGet r.headers "Content-Type" = some ct ∧
            content_type_ok ct = true) ∧
         ∃ kvs, r.json = PyVal.dict kvs ∧
           (kvs.lookup "data").isSome = true ∧
           ∀ kv ∈ kvs, kv.1 = "data")) ∧
    valid_on_call_request c8_extra_request = .ok false := by
  refine ⟨fun r => ?_, rfl⟩
  unfold valid_on_call_request _on_call_valid_method
    _on_call_valid_content_type _on_call_valid_body
  by_cases hm : r.method = "POST"
  · simp only [hm, beq_self_eq_true, Bool.not_true, Bool.false_eq_true,
      if_false]
    cases hct : headerGet r.headers "Content-Type" with
    | none => simp
    | some ct =>
      cases hok : content_type_ok ct with
      | false => simp [hok]
      | true =>
        simp only [hok, Bool.not_true, Bool.false_eq_true, if_false]
        cases hj : r.json with
        | none => simp [PyVal.isNone]
        | dict kvs =>
          simp only [PyVal.isNone, Bool.false_eq_true, if_false, pyIn, bind,
            Except.bind, pyKeys, pure, Except.pure]
          cases hd : (kvs.lookup "data").isSome with
          | false =>
            constructor
            · intro h
              simp at h
            · rintro ⟨-, -, kvs2, hkvs2, hd2, -⟩
              injection hkvs2 with h2
              rw [← h2] at hd2
              rw [hd] at hd2
              cases hd2
          | true =>
            simp only [hd, Bool.not_true, Bool.false_eq_true, if_false]
            constructor
            · intro h
              simp only [Except.ok.injEq, beq_iff_eq, List.length_eq_zero,
                List.filter_eq_nil_iff] at h
              refine ⟨trivial, ⟨ct, rfl, hok⟩, kvs, rfl, hd, fun kv hkv => ?_⟩
              have := h kv.1 (List.mem_map.mpr ⟨kv, hkv, rfl⟩)
              simpa using this
            · rintro ⟨-, -, kvs2, hkvs2, -, hall⟩
              injection hkvs2 with h2
              simp only [Except.ok.injEq, beq_iff_eq, List.length_eq_zero,
                List.filter_eq_nil_iff]
              intro a ha
              obtain ⟨kv, hkv, rfl⟩ := List.mem_map.mp ha
              simp [hall kv (h2 ▸ hkv)]
        | sentinel => simp [PyVal.isNone, pyIn, bind, Except.bind]
        | bool b => simp [PyVal.isNone, pyIn, bind, Except.bind]
        | int n => simp [PyVal.isNone, pyIn, bind, Except.bind]
        | secretParam nm => simp [PyVal.isNone, pyIn, bind, Except.bind]
        | datetime t => simp [PyVal.isNone, pyIn, bind, Except.bind]
        | list xs =>
          simp only [PyVal.isNone, Bool.false_eq_true, if_false, pyIn, bind,
            Except.bind]
          cases hin : xs.any (PyVal.pyEq (.str "data")) with
          | false => simp [hin]
          | true => simp [hin, pyKeys]
        | str s =>
          simp only [PyVal.isNone, Bool.false_eq_true, if_false, pyIn, bind,
            Except.bind]
          cases hin : listContainsSub "data".toList s.toList with
          | false => simp [hin]
          | true => simp [hin, pyKeys]
  · simp [hm, beq_false_of_ne hm]

end Firebase

namespace Firebase

theorem check_tokens_auth (va vp : Verifier) (r : Request) :
    (on_call_check_tokens va vp r).auth =
      (match _on_call_check_auth_token va r with
        | .noneR => OnCallTokenState.MISSING
        | .claims _ => OnCallTokenState.VALID
        | .invalidR => OnCallTokenState.INVALID) := by
  unfold on_call_check_tokens
  cases _on_call_check_auth_token va r <;>
    cases _on_call_check_app_token vp r <;> rfl

theorem check_tokens_auth_token (va vp : Verifier) (r : Request) :
    (on_call_check_tokens va vp r).auth_token =
      (match _on_call_check_auth_token va r with
        | .claims d => some d
        | _ => Option.none) := by
  unfold on_call_check_tokens
  cases _on_call_check_auth_token va r <;>
    cases _on_call_check_app_token vp r <;> rfl

theorem check_tokens_app (va vp : Verifier) (r : Request) :
    (on_call_check_tokens va vp r).app =
      (match _on_call_check_app_token vp r with
        | .noneR => OnCallTokenState.MISSING
        | .claims _ => OnCallTokenState.VALID
        | .invalidR => OnCallTokenState.INVALID) := by
  unfold on_call_check_tokens
  cases _on_call_check_auth_token va r <;>
    cases _on_call_check_app_token vp r <;> rfl

theorem check_tokens_app_token (va vp : Verifier) (r : Request) :
    (on_call_check_tokens va vp r).app_token =
      (match _on_call_check_app_token vp r with
        | .claims d => some d
        | _ => Option.none) := by
  unfold on_call_check_tokens
  cases _on_call_check_auth_token va r <;>
    cases _on_call_check_app_token vp r <;> rfl

/-- C9.  `on_call_check_tokens` always returns a verdict (it is a total
function of the request and the two external verifiers) and, for each token
independently: an absent header yields `MISSING` with no claims; a present
auth header without the `Bearer ` prefix, or one whose verifier raises,
yields `INVALID` with no claims; a verified token yields `VALID` with its
claims attached — likewise for the app-check token (which has no bearer
prefix); in particular `Authorization: Bearer badtoken` with a raising
verifier gives `INVALID`/no claims and an absent header gives `MISSING`. -/
theorem C9_token_verdicts :
    (∀ (va vp : Verifier) (r : Request),
      (headerGet r.headers "Authorization" = Option.none →
        (on_call_check_tokens va vp r).auth = .MISSING ∧
        (on_call_check_tokens va vp r).auth_token = Option.none) ∧
      (∀ a, headerGet r.headers "Authorization" = some a →
        pyStartsWith a "Bearer " = false →
        (on_call_check_tokens va vp r).auth = .INVALID ∧
        (on_call_check_tokens va vp r).auth_token = Option.none) ∧
      (∀ a, headerGet r.headers "Authorization" = some a →
        pyStartsWith a "Bearer " = true →
        va (pyReplace a "Bearer " "") = Option.none →
        (on_call_check_tokens va vp r).auth = .INVALID ∧
        (on_call_check_tokens va vp r).auth_token = Option.none) ∧
      (∀ a d, headerGet r.headers "Authorization" = some a →
        pyStartsWith a "Bearer " = true →
        va (pyReplace a "Bearer " "") = some d →
        (on_call_check_tokens va vp r).auth = .VALID ∧
        (on_call_check_tokens va vp r).auth_token = some d) ∧
      (headerGet r.headers "X-Firebase-AppCheck" = Option.none →
        (on_call_check_tokens va vp r).app = .MISSING ∧
        (on_call_check_tokens va vp r).app_token = Option.none) ∧
      (∀ t, headerGet r.headers "X-Firebase-AppCheck" = some t →
        vp t = Option.none →
        (on_call_check_tokens va vp r).app = .INVALID ∧
        (on_call_check_tokens va vp r).app_token = Option.none) ∧
      (∀ t d, headerGet r.headers "X-Firebase-AppCheck" = some t →
        vp t = some d →
        (on_call_check_tokens va vp r).app = .VALID ∧
        (on_call_check_tokens va vp r).app_token = some d)) ∧
    ((on_call_check_tokens failing_verifier failing_verifier
        c9_bearer_request).auth = .INVALID ∧
     (on_call_check_tokens failing_verifier failing_verifier
        c9_bearer_request).auth_token = Option.none) ∧
    (on_call_check_tokens failing_verifier failing_verifier
        c9_noauth_request).auth = .MISSING := by
  refine ⟨fun va vp r => ?_, ⟨rfl, rfl⟩, rfl⟩
  refine ⟨fun h => ?_, fun a ha hpre => ?_, fun a ha hpre hv => ?_,
    fun a d ha hpre hv => ?_, fun h => ?_, fun t ht hv => ?_,
    fun t d ht hv => ?_⟩
  · exact ⟨by simp [check_tokens_auth, _on_call_check_auth_token, h],
      by simp [check_tokens_auth_token, _on_call_check_auth_token, h]⟩
  · exact ⟨by simp [check_tokens_auth, _on_call_check_auth_token, ha, hpre],
      by simp [check_tokens_auth_token, _on_call_check_auth_token, ha, hpre]⟩
  · exact ⟨by
      simp [check_tokens_auth, _on_call_check_auth_token, ha, hpre, hv],
      by simp [check_tokens_auth_token, _on_call_check_auth_token, ha, hpre,
        hv]⟩
  · exact ⟨by
      simp [check_tokens_auth, _on_call_check_auth_token, ha, hpre, hv],
      by simp [check_tokens_auth_token, _on_call_check_auth_token, ha, hpre,
        hv]⟩
  · exact ⟨by simp [check_tokens_app, _on_call_check_app_token, h],
      by simp [check_tokens_app_token, _on_call_check_app_token, h]⟩
  · exact ⟨by simp [check_tokens_app, _on_call_check_app_token, ht, hv],
      by simp [check_tokens_app_token, _on_call_check_app_token, ht, hv]⟩
  · exact ⟨by simp [check_tokens_app, _on_call_check_app_token, ht, hv],
      by simp [check_tokens_app_token, _on_call_check_app_token, ht, hv]⟩

end Firebase

namespace Firebase

theorem message_ordering_of_from_dict (md : List (String × PyVal))
    (o : PyVal) (m : Message) (h : message_from_dict md o = .ok m) :
    m.ordering_key = o := by
  unfold message_from_dict at h
  split at h
  · split at h
    · injection h with h2
      subst h2
      rfl
    · cases h
  · cases h

theorem ordering_key_stable (md : List (String × PyVal)) (pt : Timestamp) :
    ((dictPop (dictPop (dictSet md "publish_time" (.datetime pt))
        "messageId") "publishTime").lookup "orderingKey") =
      md.lookup "orderingKey" := by
  simp [lookup_dictPop, lookup_dictSet]

end Firebase

namespace Firebase

/-- C10.  A raw envelope whose nested message has no `orderingKey` field
still adapts successfully — `orderingKey` is popped with default `None` — and
the constructed message's `ordering_key` is `None`; shown universally for
every successful adaptation from an `orderingKey`-free message dict, and
concretely on `c10_raw`, where the handler receives the fully built event
`c10_event`. -/
theorem C10_missing_ordering_key :
    (∀ (raw : RawCloudEvent) (e : CloudEvent)
        (md : List (String × PyVal)),
      message_handler_event raw = .ok e →
      raw_message_dict raw = .ok md →
      md.lookup "orderingKey" = Option.none →
      e.data.message.ordering_key = PyVal.none) ∧
    message_handler_event c10_raw = .ok c10_event ∧
    c10_event.data.message.ordering_key = PyVal.none := by
  refine ⟨fun raw e md hev hmd hok => ?_, rfl, rfl⟩
  unfold message_handler_event at hev
  rw [hmd] at hev
  simp only [bind, Except.bind] at hev
  cases hT : pyKeyLookup (event_dict_of raw) "time" with
  | error s => rw [hT] at hev; simp at hev
  | ok v1 =>
    rw [hT] at hev
    simp only [] at hev
    cases hS : strptime_py v1 with
    | error s => rw [hS] at hev; simp at hev
    | ok time =>
      rw [hS] at hev
      simp only [] at hev
      cases hP : pyKeyLookup md "publish_time" with
      | error s => rw [hP] at hev; simp at hev
      | ok v2 =>
        rw [hP] at hev
        simp only [] at hev
        cases hS2 : strptime_py v2 with
        | error s => rw [hS2] at hev; simp at hev
        | ok pt =>
          rw [hS2] at hev
          simp only [] at hev
          cases hM : message_from_dict
              (dictSetOrAdd (dictPop (dictPop (dictPop
                  (dictSet md "publish_time" (.datetime pt)) "messageId")
                  "publishTime") "orderingKey") "attributes"
                (((dictPop (dictPop (dictPop (dictSet md "publish_time"
                  (.datetime pt)) "messageId") "publishTime")
                  "orderingKey").lookup "attributes").getD (.dict [])))
              (((dictPop (dictPop (dictSet md "publish_time" (.datetime pt))
                "messageId") "publishTime").lookup "orderingKey").getD
                PyVal.none) with
          | error s => rw [hM] at hev; simp at hev
          | ok msg =>
            rw [hM] at hev
            simp only [] at hev
            have hmsg := message_ordering_of_from_dict _ _ _ hM
            rw [ordering_key_stable, hok] at hmsg
            cases hD : pyKeyLookup (event_dict_of raw) "data" with
            | error s => rw [hD] at hev; simp at hev
            | ok dv =>
              rw [hD] at hev
              simp only [] at hev
              cases hSub : pyGetItem dv "subscription" with
              | error s => rw [hSub] at hev; simp at hev
              | ok sub =>
                rw [hSub] at hev
                simp only [] at hev
                cases hId : pyKeyLookup (event_dict_of raw) "id" with
                | error s => rw [hId] at hev; simp at hev
                | ok idv =>
                  rw [hId] at hev
                  simp only [] at hev
                  cases hSrc : pyKeyLookup (event_dict_of raw) "source" with
                  | error s => rw [hSrc] at hev; simp at hev
                  | ok srcv =>
                    rw [hSrc] at hev
                    simp only [] at hev
                    cases hSpec : pyKeyLookup (event_dict_of raw)
                        "specversion" with
                    | error s => rw [hSpec] at hev; simp at hev
                    | ok spv =>
                      rw [hSpec] at hev
                      simp only [] at hev
                      cases hTy : pyKeyLookup (event_dict_of raw) "type" with
                      | error s => rw [hTy] at hev; simp at hev
                      | ok tyv =>
                        rw [hTy] at hev
                        simp only [pure, Except.pure] at hev
                        injection hev with h2
                        rw [← h2]
                        exact hmsg

end Firebase

namespace Firebase

/-- C8 witness: the shape-validation equivalence applied at a concrete
well-formed callable request. -/
theorem C8_validate_shape_witness :
    valid_on_call_request (Request.mk "POST"
      [("Content-Type", "application/json")] (.dict [("data", .int 1)])) =
      .ok true :=
  (C8_validate_shape.1 _).mpr
    ⟨rfl, ⟨"application/json", rfl, rfl⟩, [("data", .int 1)], rfl, rfl,
     by simp⟩

/-- C9 witness: every verdict rule instantiated at a concrete request and
verifier. -/
theorem C9_token_verdicts_witness :
    ((on_call_check_tokens failing_verifier failing_verifier
        c9_noauth_request).auth = .MISSING ∧
     (on_call_check_tokens failing_verifier failing_verifier
        c9_noauth_request).auth_token = Option.none) ∧
    ((on_call_check_tokens failing_verifier failing_verifier
        (Request.mk "POST" [("Authorization", "Token x")] .none)).auth =
          .INVALID ∧
     (on_call_check_tokens failing_verifier failing_verifier
        (Request.mk "POST" [("Authorization", "Token x")]
          .none)).auth_token = Option.none) ∧
    ((on_call_check_tokens failing_verifier failing_verifier
        c9_bearer_request).auth = .INVALID ∧
     (on_call_check_tokens failing_verifier failing_verifier
        c9_bearer_request).auth_token = Option.none) ∧
    ((on_call_check_tokens accepting_verifier failing_verifier
        c9_bearer_request).auth = .VALID ∧
     (on_call_check_tokens accepting_verifier failing_verifier
        c9_bearer_request).auth_token = some [("uid", .str "u1")]) ∧
    ((on_call_check_tokens failing_verifier failing_verifier
        c9_noauth_request).app = .MISSING ∧
     (on_call_check_tokens failing_verifier failing_verifier
        c9_noauth_request).app_token = Option.none) ∧
    ((on_call_check_tokens failing_verifier failing_verifier
        (Request.mk "POST" [("X-Firebase-AppCheck", "t")] .none)).app =
          .INVALID ∧
     (on_call_check_tokens failing_verifier failing_verifier
        (Request.mk "POST" [("X-Firebase-AppCheck", "t")] .none)).app_token
          = Option.none) ∧
    ((on_call_check_tokens failing_verifier accepting_verifier
        (Request.mk "POST" [("X-Firebase-AppCheck", "t")] .none)).app =
          .VALID ∧
     (on_call_check_tokens failing_verifier accepting_verifier
        (Request.mk "POST" [("X-Firebase-AppCheck", "t")] .none)).app_token
          = some [("uid", .str "u1")]) :=
  ⟨(C9_token_verdicts.1 failing_verifier failing_verifier
      c9_noauth_request).1 rfl,
   (C9_token_verdicts.1 failing_verifier failing_verifier
      (Request.mk "POST" [("Authorization", "Token x")] .none)).2.1
      "Token x" rfl rfl,
   (C9_token_verdicts.1 failing_verifier failing_verifier
      c9_bearer_request).2.2.1 "Bearer badtoken" rfl rfl rfl,
   (C9_token_verdicts.1 accepting_verifier failing_verifier
      c9_bearer_request).2.2.2.1 "Bearer badtoken" [("uid", .str "u1")]
      rfl rfl rfl,
   (C9_token_verdicts.1 failing_verifier failing_verifier
      c9_noauth_request).2.2.2.2.1 rfl,
   (C9_token_verdicts.1 failing_verifier failing_verifier
      (Request.mk "POST" [("X-Firebase-AppCheck", "t")] .none)).2.2.2.2.2.1
      "t" rfl rfl,
   (C9_token_verdicts.1 failing_verifier accepting_verifier
      (Request.mk "POST" [("X-Firebase-AppCheck", "t")] .none)).2.2.2.2.2.2
      "t" [("uid", .str "u1")] rfl rfl⟩

/-- C10 witness: the universal no-`orderingKey` fact applied at the concrete
envelope `c10_raw`. -/
theorem C10_missing_ordering_key_witness :
    c10_event.data.message.ordering_key = PyVal.none :=
  C10_missing_ordering_key.1 c10_raw c10_event c10_md rfl rfl rfl

end Firebase
